import Mathlib

/-!
Verification of the todo HTTP service (`src/main.go`).

The service is a thin CRUD adapter over a MongoDB collection, accessed
through the mgo driver.  We shallowly embed the parts of the program the
claims are about:

* BSON values and documents (`BVal`, `Doc`), the collection as a list of
  documents, and the mgo operations the handlers issue (`insertDoc`,
  `mongoUpdate`, `mongoRemoveId`).  BSON equality is type-sensitive: a
  BSON string whose bytes coincide with an ObjectId's bytes is a
  different value, exactly as in MongoDB.
* The helper functions of the driver that the handlers call:
  `bson.ObjectId.Hex` (`hexEncode`), `bson.IsObjectIdHex`
  (`isObjectIdHex`), `bson.ObjectIdHex` (`hexDecode`), and Go's
  `strings.TrimSpace` (`trimSpace`).
* The four handlers `fetchTodo`, `createTodo`, `updateTodo`,
  `deleteTodo`.  A handler's observable behaviour is the list of
  `(status, JSON body)` pairs it passes to the renderer, the list of
  storage operations it issues, and the resulting collection.  A handler
  that returns without writing is observed by `net/http` as a 200 with
  an empty body (`observedStatus`).
* The statements `main` executes after the interrupt signal arrives
  (`mainAfterSignal`), with `log.Panicln`'s abort semantics
  (`execStmts`).

Machine integers play no role (ids are byte lists, statuses small
naturals), so `Nat` is used throughout.
-/

/-- JSON values, as produced by the renderer (`renderer.JSON`) and by
Go's `encoding/json` marshalling of the handler's structures. -/
inductive Json where
  | str (s : String)
  | bool (b : Bool)
  | num (n : Nat)
  | arr (xs : List Json)
  | obj (fields : List (String × Json))
  deriving Repr

/-- BSON values, restricted to the types this program stores: ObjectIds
(12 raw bytes in a valid id), strings, booleans and timestamps.
Equality is type-sensitive, as in MongoDB: `BStr` never equals
`BOid`. -/
inductive BVal where
  | BOid (bytes : List Nat)
  | BStr (s : String)
  | BBool (b : Bool)
  | BTime (t : Nat)
  deriving DecidableEq, Repr

/-- A BSON document: an association list from field names to values. -/
abbrev Doc := List (String × BVal)

/-- The mongo collection the service is bound to: a list of documents. -/
abbrev Collection := List Doc

/-- Lower-case hex digit for a value below 16, as produced by Go's
`encoding/hex` (`bson.ObjectId.Hex` formats with `%x`). -/
def hexDigit (n : Nat) : Char :=
  if n < 10 then Char.ofNat (48 + n) else Char.ofNat (87 + n)

/-- Two hex digits of one byte, high nibble first. -/
def hexByte (b : Nat) : List Char :=
  [hexDigit (b / 16 % 16), hexDigit (b % 16)]

/-- `bson.ObjectId.Hex`: the lower-case hex encoding of the id's bytes.
A valid ObjectId has 12 bytes, so its hex form has 24 characters. -/
def hexEncode (bs : List Nat) : String :=
  ⟨bs.flatMap hexByte⟩

/-- One character of `encoding/hex`'s accepted alphabet:
`0-9`, `a-f`, `A-F`. -/
def isHexDigit (c : Char) : Bool :=
  (48 ≤ c.toNat ∧ c.toNat ≤ 57) ∨
  (97 ≤ c.toNat ∧ c.toNat ≤ 102) ∨
  (65 ≤ c.toNat ∧ c.toNat ≤ 70)

/-- `bson.IsObjectIdHex`: the string has exactly 24 characters and
decodes as hex. -/
def isObjectIdHex (s : String) : Bool :=
  s.length = 24 ∧ s.data.all isHexDigit

/-- Numeric value of a hex digit (callers establish `isHexDigit`). -/
def hexVal (c : Char) : Nat :=
  if 48 ≤ c.toNat ∧ c.toNat ≤ 57 then c.toNat - 48
  else if 97 ≤ c.toNat ∧ c.toNat ≤ 102 then c.toNat - 87
  else if 65 ≤ c.toNat ∧ c.toNat ≤ 70 then c.toNat - 55
  else 0

/-- Hex decoding of a character list, two digits to a byte. -/
def hexDecodeChars : List Char → List Nat
  | c1 :: c2 :: rest => (hexVal c1 * 16 + hexVal c2) :: hexDecodeChars rest
  | _ => []

/-- `bson.ObjectIdHex`: the bytes of a hex id string (the handlers only
call it after `bson.IsObjectIdHex` accepted the string). -/
def hexDecode (s : String) : List Nat :=
  hexDecodeChars s.data

/-- The bytes of a Go string (the handlers only build strings from
byte-valued characters).  `string(bson.ObjectIdHex(id))` in
`updateTodo` turns the 12 id bytes into such a string. -/
def strOfBytes (bs : List Nat) : String :=
  ⟨bs.map Char.ofNat⟩

/-- `unicode.IsSpace` on the characters Go treats as white space. -/
def isSpace (c : Char) : Bool :=
  c.toNat = 9 ∨ c.toNat = 10 ∨ c.toNat = 11 ∨ c.toNat = 12 ∨ c.toNat = 13 ∨
  c.toNat = 32 ∨ c.toNat = 133 ∨ c.toNat = 160 ∨ c.toNat = 5760 ∨
  (8192 ≤ c.toNat ∧ c.toNat ≤ 8202) ∨ c.toNat = 8232 ∨ c.toNat = 8233 ∨
  c.toNat = 8239 ∨ c.toNat = 8287 ∨ c.toNat = 12288

/-- Go's `strings.TrimSpace`: drop white space from both ends. -/
def trimSpace (s : String) : String :=
  ⟨((s.data.dropWhile isSpace).reverse.dropWhile isSpace).reverse⟩

example : hexEncode [1, 2, 171, 255] = "0102abff" := by decide
example : isObjectIdHex "5a0b1c2d3e4f5a0b1c2d3e4f" = true := by decide
example : isObjectIdHex "zz" = false := by decide
example : hexDecode "0102abff" = [1, 2, 171, 255] := by decide
example : trimSpace "  ab\t " = "ab" := by decide

/-- The stored record (`todoModel` in `main.go`): `ID` is the
`bson.ObjectId`'s bytes, `CreatedAt` an abstract timestamp. -/
structure todoModel where
  ID : List Nat
  Title : String
  Completed : Bool
  CreatedAt : Nat
  deriving DecidableEq, Repr

/-- The JSON-facing struct (`todo` in `main.go`).  Its `ID` field is a
`bson.ObjectId`, i.e. a byte string; on decoding a request body it
holds the 12 bytes of the client's hex id (or is empty), and on
marshalling it is hex-encoded. -/
structure todo where
  ID : List Nat
  Title : String
  Completed : Bool
  CreatedAt : Nat
  deriving DecidableEq, Repr

/-- `encoding/json` marshalling of `todo`: `bson.ObjectId` marshals to
the hex encoding of its bytes. -/
def todo.toJson (t : todo) : Json :=
  .obj [("id", .str (hexEncode t.ID)), ("title", .str t.Title),
        ("completed", .bool t.Completed), ("createdAt", .num t.CreatedAt)]

/-- `bson` marshalling of `todoModel`, honouring the struct tags: the
`_id` field carries `omitempty`, so an empty id is left out (and the
storage layer assigns one on insert). -/
def todoModel.toDoc (m : todoModel) : Doc :=
  (if m.ID = [] then [] else [("_id", BVal.BOid m.ID)]) ++
  [("title", BVal.BStr m.Title), ("completed", BVal.BBool m.Completed),
   ("createdAt", BVal.BTime m.CreatedAt)]

/-- The storage operations the handlers can issue on the collection. -/
inductive StorageOp where
  | findAll
  | insert (d : Doc)
  | update (sel upd : Doc)
  | removeId (oid : List Nat)
  deriving DecidableEq, Repr

/-- One renderer call: the status and JSON body passed to `rnd.JSON`. -/
structure Response where
  status : Nat
  body : Json
  deriving Repr

/-- What a handler run produces: the renderer calls it made in order,
the storage operations it issued, and the collection afterwards. -/
structure HandlerOut where
  responses : List Response
  ops : List StorageOp
  coll : Collection
  deriving Repr

/-- The status the client observes: a Go handler that returns without
writing gets `net/http`'s implicit `200`. -/
def observedStatus (rs : List Response) : Nat :=
  match rs with
  | [] => 200
  | r :: _ => r.status

/-- The body the client observes; `none` is an empty body. -/
def observedBody (rs : List Response) : Option Json :=
  (rs.head?).map Response.body

def StatusProcessing : Nat := 102
def StatusOK : Nat := 200
def StatusCreated : Nat := 201
def StatusNoContent : Nat := 204
def StatusBadRequest : Nat := 400

/-- A document matches a selector when every selector field is present
with a BSON-equal value (type-sensitive). -/
def docMatches (sel : Doc) (d : Doc) : Bool :=
  sel.all fun kv => d.lookup kv.1 = some kv.2

/-- MongoDB replacement-style update (the update document in
`updateTodo` has no `$` operators): the matched document is replaced by
the update document, keeping only its `_id`. -/
def replaceDoc (old upd : Doc) : Doc :=
  match old.lookup "_id" with
  | some v => ("_id", v) :: upd
  | none => upd

/-- `mgo`'s `Collection.Update`: update the first document matching the
selector; `none` is `ErrNotFound`. -/
def mongoUpdate : Collection → Doc → Doc → Option Collection
  | [], _, _ => none
  | d :: ds, sel, upd =>
    if docMatches sel d then some (replaceDoc d upd :: ds)
    else (mongoUpdate ds sel upd).map (d :: ·)

/-- `mgo`'s `Collection.RemoveId`: remove the document whose `_id` is
the given ObjectId; `none` is `ErrNotFound`. -/
def mongoRemoveId : Collection → List Nat → Option Collection
  | [], _ => none
  | d :: ds, oid =>
    if d.lookup "_id" = some (BVal.BOid oid) then some ds
    else (mongoRemoveId ds oid).map (d :: ·)

/-- `mgo`'s `Collection.Insert`: append the document; when `_id` was
omitted the storage layer assigns the fresh ObjectId `fresh`. -/
def insertDoc (c : Collection) (d : Doc) (fresh : List Nat) : Collection :=
  if (d.lookup "_id").isSome then c ++ [d] else c ++ [("_id", BVal.BOid fresh) :: d]

/-- The view `fetchTodo` builds for one stored record:
`ID: bson.ObjectId(t.ID.Hex())` casts the 24-character hex string to an
ObjectId, so the view's id bytes are the characters of the hex
string. -/
def modelToView (t : todoModel) : todo :=
  ⟨(hexEncode t.ID).data.map Char.toNat, t.Title, t.Completed, t.CreatedAt⟩

/-- Handler for `GET /todo/`.  The result of
`Find(bson.M{}).All(&todos)` is the parameter: `.error e` a failing
query, `.ok` the decoded records. -/
def fetchTodo (res : Except String (List todoModel)) : List Response × List StorageOp :=
  match res with
  | .error e =>
    ([⟨StatusProcessing, .obj [("message", .str "failed to fetch todo"), ("error", .str e)]⟩],
     [.findAll])
  | .ok todos =>
    ([⟨StatusOK, .obj [("data", .arr ((todos.map modelToView).map todo.toJson))]⟩],
     [.findAll])

/-- Handler for `POST /todo/`.  `decoded` is the result of the JSON
decode of the body, `now` is `time.Now()`, `fresh` the ObjectId storage
assigns when the document carries none, `insertFails` whether the
insert errors. -/
def createTodo (decoded : Except String todo) (now : Nat) (c : Collection)
    (fresh : List Nat) (insertFails : Bool) : HandlerOut :=
  match decoded with
  | .error e => ⟨[⟨StatusProcessing, .str e⟩], [], c⟩
  | .ok t =>
    let titleResps : List Response :=
      if t.Title = "" then [⟨StatusBadRequest, .obj [("message", .str "title required")]⟩]
      else []
    let tm : todoModel := ⟨t.ID, t.Title, false, now⟩
    if insertFails then
      ⟨titleResps ++
        [⟨StatusProcessing, .obj [("message", .str "failed to save todo"),
                                  ("error", .str "insert error")]⟩],
       [.insert tm.toDoc], c⟩
    else
      ⟨titleResps ++
        [⟨StatusCreated, .obj [("message", .str "todo created successfully"),
                               ("todo_id", .str (hexEncode tm.ID))]⟩],
       [.insert tm.toDoc], insertDoc c tm.toDoc fresh⟩

/-- The selector `updateTodo` sends:
`bson.M{"_id": string(bson.ObjectIdHex(id))}` — the `string(...)` cast
makes the value a BSON *string* holding the 12 raw id bytes, not an
ObjectId. -/
def updSelector (id : String) : Doc :=
  [("_id", BVal.BStr (strOfBytes (hexDecode id)))]

/-- The update document `updateTodo` sends:
`bson.M{"title": t.Title, "completed": t.Completed}` — no `$set`, so
MongoDB treats it as a whole-document replacement. -/
def updDoc (t : todo) : Doc :=
  [("title", BVal.BStr t.Title), ("completed", BVal.BBool t.Completed)]

/-- Handler for `PUT /todo/{id}`. -/
def updateTodo (idParam : String) (decoded : Except String todo) (c : Collection) : HandlerOut :=
  let id := trimSpace idParam
  if ¬ isObjectIdHex id then
    ⟨[⟨StatusBadRequest, .obj [("message", .str "invalid id")]⟩], [], c⟩
  else
    match decoded with
    | .error e => ⟨[⟨StatusProcessing, .str e⟩], [], c⟩
    | .ok t =>
      if t.Title = "" then
        ⟨[⟨StatusProcessing, .obj [("message", .str "todo required")]⟩], [], c⟩
      else
        match mongoUpdate c (updSelector id) (updDoc t) with
        | none =>
          ⟨[⟨StatusOK, .obj [("message", .str "failed update todo"), ("error", .str "not found")]⟩],
           [.update (updSelector id) (updDoc t)], c⟩
        | some c2 => ⟨[], [.update (updSelector id) (updDoc t)], c2⟩

/-- Handler for `DELETE /todo/{id}`. -/
def deleteTodo (idParam : String) (c : Collection) : HandlerOut :=
  let id := trimSpace idParam
  if ¬ isObjectIdHex id then
    ⟨[⟨StatusProcessing, .obj [("message", .str "invalid id")]⟩], [], c⟩
  else
    match mongoRemoveId c (hexDecode id) with
    | none =>
      ⟨[⟨StatusProcessing, .obj [("message", .str "failed delete todo")]⟩],
       [.removeId (hexDecode id)], c⟩
    | some c2 =>
      ⟨[⟨StatusNoContent, .obj [("message", .str "delete successfully")]⟩],
       [.removeId (hexDecode id)], c2⟩

/-- The statements `main` runs once `<-stopChannel` delivers the
interrupt signal. -/
inductive MainStmt where
  | logPanicln (msg : String)
  | logPrintln (msg : String)
  | shutdownCall
  deriving DecidableEq, Repr

/-- The post-signal tail of `main` in source order. -/
def mainAfterSignal : List MainStmt :=
  [.logPanicln "shutting down server...", .shutdownCall,
   .logPrintln "server gracefuly stopped!"]

/-- Sequential execution: `log.Panicln` logs and then panics, so
nothing after it runs (no recover is installed in `main`). -/
def execStmts : List MainStmt → List MainStmt
  | [] => []
  | .logPanicln m :: _ => [.logPanicln m]
  | s :: rest => s :: execStmts rest

/-- A concrete 12-byte ObjectId, for concrete evaluations. -/
def oidA : List Nat := [1, 2, 3, 4, 5, 6, 7, 8, 9, 10, 11, 12]

/-- A second concrete 12-byte ObjectId. -/
def oidB : List Nat := [13, 14, 15, 16, 17, 18, 19, 20, 21, 22, 23, 24]

/-- A concrete stored record with id `oidA`. -/
def itemA : todoModel := ⟨oidA, "old", false, 7⟩

/-- A document whose `_id` is stored as a BSON *string* of `oidA`'s
bytes — the only kind of `_id` the update selector can ever match. -/
def strIdDocA : Doc :=
  [("_id", BVal.BStr (strOfBytes oidA)), ("title", BVal.BStr "old"),
   ("completed", BVal.BBool false), ("createdAt", BVal.BTime 7)]

/-- C1: when the decoded Create body has an empty title, the handler
writes the bad-request "title required" response, yet — the rejection
branch having no `return` — still issues the insert of the record built
from the request. -/
theorem C1_create_empty_title_still_inserts (t : todo) (now : Nat) (c : Collection)
    (fresh : List Nat) (insertFails : Bool) (h : t.Title = "") :
    (createTodo (.ok t) now c fresh insertFails).responses.head? =
      some ⟨StatusBadRequest, Json.obj [("message", Json.str "title required")]⟩ ∧
    (createTodo (.ok t) now c fresh insertFails).ops =
      [StorageOp.insert (todoModel.mk t.ID t.Title false now).toDoc] := by
  cases insertFails <;> simp [createTodo, h]

/-- C1, instantiated: an empty-title request both draws the rejection
and reaches the insert. -/
theorem C1_witness :
    (todo.mk [] "" false 0).Title = "" ∧
    ((createTodo (.ok (todo.mk [] "" false 0)) 5 [] oidB false).responses.head? =
      some ⟨StatusBadRequest, Json.obj [("message", Json.str "title required")]⟩ ∧
     (createTodo (.ok (todo.mk [] "" false 0)) 5 [] oidB false).ops =
      [StorageOp.insert (todoModel.mk [] "" false 5).toDoc]) :=
  ⟨rfl, C1_create_empty_title_still_inserts (todo.mk [] "" false 0) 5 [] oidB false rfl⟩

/-- C2 (code bug, evaluated at the failing input): with one stored item
of id `oidA` and a well-formed update request for that very id, the
handler's update matches nothing — the selector compares `_id` against
a BSON string, the stored `_id` is an ObjectId — so it answers "failed
update todo" and the collection is unchanged; and even on a document
whose `_id` *is* that string, the replacement-style update erases
`createdAt`. -/
theorem C2_update_never_succeeds_and_drops_createdAt :
    (updateTodo (hexEncode oidA) (.ok (todo.mk [] "new" true 0)) [itemA.toDoc]).responses =
      [⟨StatusOK, Json.obj [("message", Json.str "failed update todo"),
                            ("error", Json.str "not found")]⟩] ∧
    (updateTodo (hexEncode oidA) (.ok (todo.mk [] "new" true 0)) [itemA.toDoc]).coll =
      [itemA.toDoc] ∧
    (updateTodo (hexEncode oidA) (.ok (todo.mk [] "new" true 0)) [strIdDocA]).coll =
      [[("_id", BVal.BStr (strOfBytes oidA)), ("title", BVal.BStr "new"),
        ("completed", BVal.BBool true)]] :=
  ⟨rfl, by decide, by decide⟩

/-- C3 (counterexample): the client-supplied id is *not* ignored — two
Create requests identical but for the body's id issue different inserts
into storage. -/
theorem C3_counterexample_client_id_not_ignored :
    (createTodo (.ok (todo.mk oidA "x" false 0)) 3 [] oidB false).ops ≠
    (createTodo (.ok (todo.mk [] "x" false 0)) 3 [] oidB false).ops := by
  decide

/-- C3 (amended): every Create inserts exactly the record whose
`Completed` is false and whose `CreatedAt` is the server's `now`,
ignoring the client's completed value — but whose `ID` is copied from
the client body (only an empty id is omitted, for storage to assign). -/
theorem C3_create_assigns_server_fields (t : todo) (now : Nat) (c : Collection)
    (fresh : List Nat) (insertFails : Bool) :
    (createTodo (.ok t) now c fresh insertFails).ops =
      [StorageOp.insert (todoModel.mk t.ID t.Title false now).toDoc] := by
  cases insertFails <;> rfl

/-- C6 (code bug): `main`'s post-signal tail contains the shutdown
call, but execution panics at `log.Panicln` first, so the shutdown is
never executed. -/
theorem C6_shutdown_call_never_executed :
    MainStmt.shutdownCall ∈ mainAfterSignal ∧
    execStmts mainAfterSignal = [MainStmt.logPanicln "shutting down server..."] ∧
    MainStmt.shutdownCall ∉ execStmts mainAfterSignal := by
  decide

lemma flatMap_hexByte_length (bs : List Nat) : (bs.flatMap hexByte).length = 2 * bs.length := by
  induction bs with
  | nil => rfl
  | cons b t ih => simp [List.flatMap_cons, hexByte, List.length_append, ih]; omega

lemma hexEncode_length (bs : List Nat) : (hexEncode bs).length = 2 * bs.length :=
  flatMap_hexByte_length bs

lemma isHexDigit_hexDigit {n : Nat} (h : n < 16) : isHexDigit (hexDigit n) = true := by
  interval_cases n <;> decide

lemma all_isHexDigit_flatMap (bs : List Nat) : (bs.flatMap hexByte).all isHexDigit = true := by
  induction bs with
  | nil => rfl
  | cons b t ih =>
    have h1 : isHexDigit (hexDigit (b / 16 % 16)) = true :=
      isHexDigit_hexDigit (Nat.mod_lt _ (by omega))
    have h2 : isHexDigit (hexDigit (b % 16)) = true :=
      isHexDigit_hexDigit (Nat.mod_lt _ (by omega))
    simp [List.flatMap_cons, List.all_append, hexByte, h1, h2, ih]

/-- The id string the List handler's JSON carries for a stored record:
the marshalling of the `bson.ObjectId(t.ID.Hex())` cast in
`fetchTodo`. -/
def listEmittedId (m : todoModel) : String :=
  hexEncode (modelToView m).ID

/-- C4: for a stored item (12-byte id), the id List emits is the hex
re-encoding of the item's 24-character hex id — a 48-hex-character
string — so it differs from the id Create returned and fails the
24-character check Update and Delete apply: the Create-then-List id
round-trip fails. -/
theorem C4_list_id_round_trip_fails (m : todoModel) (h : m.ID.length = 12) :
    (modelToView m).toJson =
      Json.obj [("id", Json.str (listEmittedId m)), ("title", Json.str m.Title),
                ("completed", Json.bool m.Completed), ("createdAt", Json.num m.CreatedAt)] ∧
    listEmittedId m = hexEncode ((hexEncode m.ID).data.map Char.toNat) ∧
    (hexEncode m.ID).length = 24 ∧
    (listEmittedId m).length = 48 ∧
    (listEmittedId m).data.all isHexDigit = true ∧
    listEmittedId m ≠ hexEncode m.ID ∧
    isObjectIdHex (listEmittedId m) = false := by
  have h24 : (hexEncode m.ID).length = 24 := by rw [hexEncode_length, h]
  have hdata24 : (hexEncode m.ID).data.length = 24 := h24
  have h48 : (listEmittedId m).length = 48 := by
    show (hexEncode ((hexEncode m.ID).data.map Char.toNat)).length = 48
    rw [hexEncode_length, List.length_map, hdata24]
  refine ⟨rfl, rfl, h24, h48, all_isHexDigit_flatMap _, ?_, ?_⟩
  · intro he
    have := congrArg String.length he
    rw [h48, h24] at this
    exact absurd this (by decide)
  · simp [isObjectIdHex, h48]

/-- C4, instantiated at the stored record `itemA`. -/
theorem C4_witness :
    itemA.ID.length = 12 ∧
    ((modelToView itemA).toJson =
      Json.obj [("id", Json.str (listEmittedId itemA)), ("title", Json.str itemA.Title),
                ("completed", Json.bool itemA.Completed), ("createdAt", Json.num itemA.CreatedAt)] ∧
     listEmittedId itemA = hexEncode ((hexEncode itemA.ID).data.map Char.toNat) ∧
     (hexEncode itemA.ID).length = 24 ∧
     (listEmittedId itemA).length = 48 ∧
     (listEmittedId itemA).data.all isHexDigit = true ∧
     listEmittedId itemA ≠ hexEncode itemA.ID ∧
     isObjectIdHex (listEmittedId itemA) = false) :=
  ⟨by decide, C4_list_id_round_trip_fails itemA (by decide)⟩

/-- C5 (counterexample): a Delete with a syntactically invalid id is
answered with status `StatusProcessing` (102), which is not in the 4xx
class. -/
theorem C5_counterexample_delete_status_not_4xx :
    (deleteTodo "zz" [itemA.toDoc]).responses =
      [⟨StatusProcessing, Json.obj [("message", Json.str "invalid id")]⟩] ∧
    ¬ (400 ≤ StatusProcessing ∧ StatusProcessing < 500) :=
  ⟨rfl, by decide⟩

/-- C5 (amended): on a syntactically invalid id both handlers reject
without any storage call and leave the collection unchanged; Update
answers 400 Bad Request (a 4xx), while Delete answers 102
(StatusProcessing), which is not a 4xx. -/
theorem C5_invalid_id_rejected_no_storage (idParam : String) (decoded : Except String todo)
    (c : Collection) (h : isObjectIdHex (trimSpace idParam) = false) :
    (updateTodo idParam decoded c).responses =
      [⟨StatusBadRequest, Json.obj [("message", Json.str "invalid id")]⟩] ∧
    (400 ≤ StatusBadRequest ∧ StatusBadRequest < 500) ∧
    (updateTodo idParam decoded c).ops = [] ∧
    (updateTodo idParam decoded c).coll = c ∧
    (deleteTodo idParam c).responses =
      [⟨StatusProcessing, Json.obj [("message", Json.str "invalid id")]⟩] ∧
    (deleteTodo idParam c).ops = [] ∧
    (deleteTodo idParam c).coll = c := by
  unfold updateTodo deleteTodo
  simp [h]
  decide

/-- C5, instantiated at the invalid id `"zz"`. -/
theorem C5_witness :
    isObjectIdHex (trimSpace "zz") = false ∧
    ((updateTodo "zz" (.ok (todo.mk [] "a" false 0)) []).responses =
      [⟨StatusBadRequest, Json.obj [("message", Json.str "invalid id")]⟩] ∧
    (400 ≤ StatusBadRequest ∧ StatusBadRequest < 500) ∧
    (updateTodo "zz" (.ok (todo.mk [] "a" false 0)) []).ops = [] ∧
    (updateTodo "zz" (.ok (todo.mk [] "a" false 0)) []).coll = [] ∧
    (deleteTodo "zz" []).responses =
      [⟨StatusProcessing, Json.obj [("message", Json.str "invalid id")]⟩] ∧
    (deleteTodo "zz" []).ops = [] ∧
    (deleteTodo "zz" []).coll = []) :=
  ⟨by decide, C5_invalid_id_rejected_no_storage "zz" (.ok (todo.mk [] "a" false 0)) [] (by decide)⟩

/-- The top-level keys of a JSON object. -/
def jsonKeys : Json → List String
  | .obj fs => fs.map Prod.fst
  | _ => []

/-- C7: List answers a storage failure with a JSON error body at status
102 (`http.StatusProcessing`, the status the specification calls the
server-processing-error class), and success with status 200 OK and the
JSON array of the stored items, each carrying exactly the fields id,
title, completed, createdAt. -/
theorem C7_fetch_response_shape (e : String) (ms : List todoModel) :
    fetchTodo (.error e) =
      ([⟨StatusProcessing, Json.obj [("message", Json.str "failed to fetch todo"),
                                     ("error", Json.str e)]⟩], [StorageOp.findAll]) ∧
    fetchTodo (.ok ms) =
      ([⟨StatusOK, Json.obj [("data", Json.arr ((ms.map modelToView).map todo.toJson))]⟩],
       [StorageOp.findAll]) ∧
    ∀ m : todoModel, jsonKeys ((modelToView m).toJson) =
      ["id", "title", "completed", "createdAt"] :=
  ⟨rfl, rfl, fun _ => rfl⟩

/-- C9: Delete with a valid id answers a failing remove with 102
(StatusProcessing) and message "failed delete todo", and a successful
remove with 204 No Content accompanied by a JSON body. -/
theorem C9_delete_response_shape (idParam : String) (c : Collection)
    (hid : isObjectIdHex (trimSpace idParam) = true) :
    (mongoRemoveId c (hexDecode (trimSpace idParam)) = none →
      (deleteTodo idParam c).responses =
        [⟨StatusProcessing, Json.obj [("message", Json.str "failed delete todo")]⟩]) ∧
    (∀ c2, mongoRemoveId c (hexDecode (trimSpace idParam)) = some c2 →
      (deleteTodo idParam c).responses =
        [⟨StatusNoContent, Json.obj [("message", Json.str "delete successfully")]⟩] ∧
      (deleteTodo idParam c).coll = c2) := by
  unfold deleteTodo
  constructor
  · intro hmu
    simp [hid, hmu]
  · intro c2 hmu
    simp [hid, hmu]

/-- C9, instantiated: removing the stored `itemA` by its hex id. -/
theorem C9_witness :
    isObjectIdHex (trimSpace (hexEncode oidA)) = true ∧
    ((mongoRemoveId [itemA.toDoc] (hexDecode (trimSpace (hexEncode oidA))) = none →
      (deleteTodo (hexEncode oidA) [itemA.toDoc]).responses =
        [⟨StatusProcessing, Json.obj [("message", Json.str "failed delete todo")]⟩]) ∧
    (∀ c2, mongoRemoveId [itemA.toDoc] (hexDecode (trimSpace (hexEncode oidA))) = some c2 →
      (deleteTodo (hexEncode oidA) [itemA.toDoc]).responses =
        [⟨StatusNoContent, Json.obj [("message", Json.str "delete successfully")]⟩] ∧
      (deleteTodo (hexEncode oidA) [itemA.toDoc]).coll = c2)) :=
  ⟨by decide, C9_delete_response_shape (hexEncode oidA) [itemA.toDoc] (by decide)⟩

/-- C8: Update with a valid id and non-empty title answers a failing
storage update with an error message (at status 200), and on a
successful update writes nothing, so the client observes `net/http`'s
implicit 200 with an empty body. -/
theorem C8_update_silent_success (idParam : String) (t : todo) (c : Collection)
    (hid : isObjectIdHex (trimSpace idParam) = true) (ht : ¬ t.Title = "") :
    (mongoUpdate c (updSelector (trimSpace idParam)) (updDoc t) = none →
      (updateTodo idParam (.ok t) c).responses =
        [⟨StatusOK, Json.obj [("message", Json.str "failed update todo"),
                              ("error", Json.str "not found")]⟩]) ∧
    (∀ c2, mongoUpdate c (updSelector (trimSpace idParam)) (updDoc t) = some c2 →
      (updateTodo idParam (.ok t) c).responses = [] ∧
      observedStatus (updateTodo idParam (.ok t) c).responses = 200 ∧
      observedBody (updateTodo idParam (.ok t) c).responses = none ∧
      (updateTodo idParam (.ok t) c).coll = c2) := by
  unfold updateTodo
  constructor
  · intro hmu
    simp [hid, ht, hmu]
  · intro c2 hmu
    simp [hid, ht, hmu, observedStatus, observedBody]

/-- C8, instantiated: a collection holding the one document the update
selector can match, so both the failing and the succeeding branches are
exercised at concrete inputs. -/
theorem C8_witness :
    isObjectIdHex (trimSpace (hexEncode oidA)) = true ∧
    ¬ (todo.mk [] "new" true 0).Title = "" ∧
    ((mongoUpdate [strIdDocA] (updSelector (trimSpace (hexEncode oidA)))
        (updDoc (todo.mk [] "new" true 0)) = none →
      (updateTodo (hexEncode oidA) (.ok (todo.mk [] "new" true 0)) [strIdDocA]).responses =
        [⟨StatusOK, Json.obj [("message", Json.str "failed update todo"),
                              ("error", Json.str "not found")]⟩]) ∧
    (∀ c2, mongoUpdate [strIdDocA] (updSelector (trimSpace (hexEncode oidA)))
        (updDoc (todo.mk [] "new" true 0)) = some c2 →
      (updateTodo (hexEncode oidA) (.ok (todo.mk [] "new" true 0)) [strIdDocA]).responses = [] ∧
      observedStatus (updateTodo (hexEncode oidA) (.ok (todo.mk [] "new" true 0)) [strIdDocA]).responses = 200 ∧
      observedBody (updateTodo (hexEncode oidA) (.ok (todo.mk [] "new" true 0)) [strIdDocA]).responses = none ∧
      (updateTodo (hexEncode oidA) (.ok (todo.mk [] "new" true 0)) [strIdDocA]).coll = c2)) :=
  ⟨by decide, by decide,
   C8_update_silent_success (hexEncode oidA) (todo.mk [] "new" true 0) [strIdDocA]
     (by decide) (by decide)⟩

lemma hex_not_space {c : Char} (h : isHexDigit c = true) : isSpace c = false := by
  simp [isHexDigit] at h
  simp [isSpace]
  omega

lemma dropWhile_append_of_all {l1 l2 : List Char} (h : ∀ a ∈ l1, isSpace a = true) :
    (l1 ++ l2).dropWhile isSpace = l2.dropWhile isSpace := by
  induction l1 with
  | nil => rfl
  | cons a u ih =>
    rw [List.cons_append, List.dropWhile_cons, if_pos (h a (List.mem_cons_self a u))]
    exact ih fun x hx => h x (List.mem_cons_of_mem a hx)

lemma dropWhile_cons_of_hex {a : Char} {l : List Char} (h : isHexDigit a = true) :
    (a :: l).dropWhile isSpace = a :: l := by
  have hs := hex_not_space h
  simp [List.dropWhile_cons, hs]

lemma trim_core (l1 : List Char) (a : Char) (t : List Char) (l2 : List Char)
    (hall : ∀ c ∈ a :: t, isHexDigit c = true)
    (h1 : ∀ c ∈ l1, isSpace c = true) (h2 : ∀ c ∈ l2, isSpace c = true) :
    (((l1 ++ (a :: t) ++ l2).dropWhile isSpace).reverse.dropWhile isSpace).reverse = a :: t := by
  rw [List.append_assoc, dropWhile_append_of_all h1, List.cons_append,
      dropWhile_cons_of_hex (hall a (List.mem_cons_self a t)),
      show a :: (t ++ l2) = (a :: t) ++ l2 from rfl, List.reverse_append,
      dropWhile_append_of_all fun c hc => h2 c (List.mem_reverse.mp hc)]
  cases hrev : (a :: t).reverse with
  | nil => exact absurd hrev (by simp)
  | cons b u =>
    have hb : b ∈ a :: t := by
      rw [← List.mem_reverse, hrev]
      exact List.mem_cons_self b u
    rw [dropWhile_cons_of_hex (hall b hb), ← hrev, List.reverse_reverse]

lemma strExt (a b : String) (h : a.data = b.data) : a = b := by
  cases a
  cases b
  exact congrArg String.mk h

lemma trimSpace_data (s : String) :
    (trimSpace s).data = ((s.data.dropWhile isSpace).reverse.dropWhile isSpace).reverse := rfl

lemma isObjectIdHex_parts {id : String} (hid : isObjectIdHex id = true) :
    id.length = 24 ∧ id.data.all isHexDigit = true := by
  simpa [isObjectIdHex] using hid

lemma exists_cons_of_hex_id {id : String} (hid : isObjectIdHex id = true) :
    ∃ a t, id.data = a :: t ∧ ∀ c ∈ a :: t, isHexDigit c = true := by
  obtain ⟨hlen, hall⟩ := isObjectIdHex_parts hid
  cases hd : id.data with
  | nil =>
    have : id.length = 0 := by simp [String.length, hd]
    omega
  | cons a t =>
    refine ⟨a, t, rfl, ?_⟩
    rw [← hd]
    exact fun c hc => List.all_eq_true.mp hall c hc

lemma trimSpace_pad (pre id post : String) (hid : isObjectIdHex id = true)
    (hpre : pre.data.all isSpace = true) (hpost : post.data.all isSpace = true) :
    trimSpace (pre ++ id ++ post) = id := by
  obtain ⟨a, t, hdata, hall⟩ := exists_cons_of_hex_id hid
  apply strExt
  rw [trimSpace_data, String.data_append, String.data_append, hdata,
      trim_core pre.data a t post.data hall (List.all_eq_true.mp hpre)
        (List.all_eq_true.mp hpost)]

lemma trimSpace_hex_id (id : String) (hid : isObjectIdHex id = true) :
    trimSpace id = id := by
  obtain ⟨a, t, hdata, hall⟩ := exists_cons_of_hex_id hid
  apply strExt
  rw [trimSpace_data, hdata]
  simpa using trim_core [] a t [] hall (by simp) (by simp)

/-- C10: both Update and Delete trim white space around the path id
before validating it, so a request whose id is a valid 24-character hex
id surrounded by white space is processed exactly like the bare-id
request. -/
theorem C10_whitespace_padded_id_equivalent (id pre post : String)
    (decoded : Except String todo) (c : Collection) (hid : isObjectIdHex id = true)
    (hpre : pre.data.all isSpace = true) (hpost : post.data.all isSpace = true) :
    updateTodo (pre ++ id ++ post) decoded c = updateTodo id decoded c ∧
    deleteTodo (pre ++ id ++ post) c = deleteTodo id c := by
  have h1 : trimSpace (pre ++ id ++ post) = id := trimSpace_pad pre id post hid hpre hpost
  have h2 : trimSpace id = id := trimSpace_hex_id id hid
  constructor
  · unfold updateTodo
    rw [h1, h2]
  · unfold deleteTodo
    rw [h1, h2]

/-- C10, instantiated: `oidA`'s hex id padded with spaces and a tab. -/
theorem C10_witness :
    isObjectIdHex (hexEncode oidA) = true ∧
    ("  ".data.all isSpace = true ∧ " \t".data.all isSpace = true) ∧
    (updateTodo ("  " ++ hexEncode oidA ++ " \t") (.ok (todo.mk [] "a" false 0)) [itemA.toDoc] =
      updateTodo (hexEncode oidA) (.ok (todo.mk [] "a" false 0)) [itemA.toDoc] ∧
     deleteTodo ("  " ++ hexEncode oidA ++ " \t") [itemA.toDoc] =
      deleteTodo (hexEncode oidA) [itemA.toDoc]) :=
  ⟨by decide, ⟨by decide, by decide⟩,
   C10_whitespace_padded_id_equivalent (hexEncode oidA) "  " " \t"
     (.ok (todo.mk [] "a" false 0)) [itemA.toDoc] (by decide) (by decide) (by decide)⟩
